import Mathlib

/-!
Shallow embedding of the Despair Blocker browser extension's decision
engine, alarm scheduler, ignored-block bookkeeping and overlay lifecycle.

Sources embedded:
* `src/configuration/background.js` — `shouldBlockCurrentSite`,
  `parseTimeToMinutes`, `parseTime`, `getNextAlarmTime`,
  `setupBlockingSchedule`, `blockPage`, and the `userIgnoredBlock`
  branch of the message listener;
* `src/worker/content.js` — `emergencyCleanup` and the 30-second
  periodic cleanup sweep.

Modelling conventions:
* JavaScript strings are `List Char` (`Str` below); `String.prototype.includes`
  is contiguous-substring containment and `toLowerCase` maps `Char.toLower`
  over the characters (the strings relevant here are ASCII).
* Timestamps (`Date.now()`) are integers (`Int`), so subtraction may be
  negative exactly as with JS numbers.
* Host-API calls that may reject/throw inside a `try` block are passed in as
  `Except Unit` values: the `.error` case is the rejection, and the
  surrounding `catch` of the source maps it to the source's fallback result.
* `Number(s)` applied to the pieces of an `"HH:MM"` string is modelled by
  `jsNumberNat`: the empty string is `0`, an all-digit string is its decimal
  value, and anything else is `NaN`, modelled as `none`; a JS comparison
  against `NaN` is `false`, which the `Option` matches below reproduce.
-/

namespace DespairBlocker

/-- JavaScript strings, modelled as their character lists. -/
abbrev Str := List Char

/-- `s.toLowerCase()` (ASCII). -/
def jsToLower (s : Str) : Str := s.map Char.toLower

/-- `s.includes(sub)`: `sub` occurs contiguously inside `s`. -/
def jsIncludes (s sub : Str) : Bool := decide (sub <:+: s)

/-- The `schedule` field of the persisted configuration
(`background.js`, `DEFAULT_CONFIG`). -/
structure Schedule where
  enabled : Bool
  startTime : Str
  endTime : Str
  workDays : List Nat
deriving DecidableEq

/-- The persisted configuration object (`background.js`, `DEFAULT_CONFIG`). -/
structure Config where
  blockedSites : List Str
  schedule : Schedule
  despairMessages : List Str
  enableTTS : Bool
deriving DecidableEq

/-- `background.js:221-223`: the site-match step of `shouldBlockCurrentSite`,
`config.blockedSites.some(site => hostname.includes(site.toLowerCase()) ||
site.toLowerCase().includes(hostname))`.  The source binds the result to
`isBlockedSite`. -/
def isBlockedSite (hostname : Str) (blockedSites : List Str) : Bool :=
  blockedSites.any fun site =>
    jsIncludes hostname (jsToLower site) || jsIncludes (jsToLower site) hostname

/-- `s.split(sep)` for a one-character separator: JS `String.prototype.split`
with no limit; splitting the empty string yields `[""]`. -/
def splitOnChar (sep : Char) : Str → List Str
  | [] => [[]]
  | c :: rest =>
    let r := splitOnChar sep rest
    if c == sep then [] :: r
    else
      match r with
      | [] => [[c]]
      | h :: t => (c :: h) :: t

/-- `Number(s)` restricted to the strings occurring in `"HH:MM"` parsing:
`Number("") = 0`, an all-digit string is read in decimal, anything else is
`NaN`, modelled as `none`. -/
def jsNumberNat (s : Str) : Option Nat :=
  if s.isEmpty then some 0
  else if s.all Char.isDigit then
    some (s.foldl (fun acc c => acc * 10 + (c.toNat - '0'.toNat)) 0)
  else none

/-- `background.js:258-261`, `parseTimeToMinutes`:
`const [hours, minutes] = timeString.split(':').map(Number);
return hours * 60 + minutes;`.  A missing piece destructures to `undefined`
and `Number(undefined)` is `NaN`; any `NaN` makes the whole value `NaN`
(`none`). -/
def parseTimeToMinutes (timeString : Str) : Option Nat := do
  let parts := splitOnChar ':' timeString
  let hs ← parts[0]?
  let ms ← parts[1]?
  let hours ← jsNumberNat hs
  let minutes ← jsNumberNat ms
  pure (hours * 60 + minutes)

/-- `background.js:104-107`, `parseTime`: same split, returning the
`{hours, minutes}` pair. -/
def parseTime (timeString : Str) : Option (Nat × Nat) := do
  let parts := splitOnChar ':' timeString
  let hs ← parts[0]?
  let ms ← parts[1]?
  let hours ← jsNumberNat hs
  let minutes ← jsNumberNat ms
  pure (hours, minutes)

/-- `background.js:229-247`: the schedule-evaluation tail of
`shouldBlockCurrentSite`.  `currentDay` is `now.getDay()` (0 = Sunday) and
`currentTime` is `now.getHours() * 60 + now.getMinutes()`.  When the schedule
is disabled the source returns `true` ("Always block if schedule is
disabled"); a `NaN` start or end time makes both JS comparisons false. -/
def withinWindow (currentDay currentTime : Nat) (schedule : Schedule) : Bool :=
  if !schedule.enabled then true
  else if !(schedule.workDays.contains currentDay) then false
  else
    match parseTimeToMinutes schedule.startTime,
          parseTimeToMinutes schedule.endTime with
    | some startT, some endT => decide (startT ≤ currentTime) && decide (currentTime ≤ endT)
    | _, _ => false

/-- `background.js:206-253`, `shouldBlockCurrentSite`.

`storage` is the result of `chrome.storage.sync.get(['config',
'temporaryDisabled'])`: `.error` is a rejected read (caught, line 249, result
`false`); an unset `temporaryDisabled` key destructures to `undefined`, which
is falsy, so the flag is a `Bool`.  `hostnameResult` is the result of
`new URL(url).hostname`: `.error` is a throwing constructor call (caught by
the same handler, result `false`); the source lowercases the hostname at the
call site (line 220), which the `.ok` branch reproduces. -/
def shouldBlockCurrentSite (hostnameResult : Except Unit Str)
    (storage : Except Unit (Option Config × Bool))
    (currentDay currentTime : Nat) : Bool :=
  match storage with
  | .error _ => false
  | .ok (config?, temporaryDisabled) =>
    if temporaryDisabled then false
    else
      match config? with
      | none => false
      | some config =>
        match hostnameResult with
        | .error _ => false
        | .ok rawHostname =>
          let hostname := jsToLower rawHostname
          if !(isBlockedSite hostname config.blockedSites) then false
          else withinWindow currentDay currentTime config.schedule

/-- An alarm registered with the host's alarm facility
(`chrome.alarms.create(name, {when, periodInMinutes})`).  `whenMs` is the
absolute firing time in milliseconds; `none` stands for a `NaN` time, which
arises only from an unparseable schedule string. -/
structure AlarmInfo where
  name : Str
  whenMs : Option Nat
  periodInMinutes : Nat
deriving DecidableEq

/-- `background.js:112-123`, `getNextAlarmTime`: place the `{hours, minutes}`
time on today's date (`setHours(h, m, 0, 0)`), and if that instant is at or
before `now` (`alarmTime <= now`), move it one day forward.  `todayMidnightMs`
is midnight of the current local day and `nowMs` the current instant, both in
milliseconds since the epoch. -/
def getNextAlarmTime (todayMidnightMs nowMs : Nat) (time : Nat × Nat) : Nat :=
  let alarmTime := todayMidnightMs + (time.1 * 60 + time.2) * 60000
  if alarmTime ≤ nowMs then alarmTime + 24 * 60 * 60 * 1000 else alarmTime

/-- `background.js:68-99`, `setupBlockingSchedule`: read the config; if it is
absent or `config.schedule.enabled` is false, return without touching the
alarms; otherwise `chrome.alarms.clearAll()` and create the two daily
(`periodInMinutes: 24 * 60`) alarms `blockingStart` and `blockingEnd` at the
next occurrences of the parsed start and end times.  `alarms` is the host's
current alarm set, in creation order. -/
def setupBlockingSchedule (config? : Option Config)
    (todayMidnightMs nowMs : Nat) (alarms : List AlarmInfo) : List AlarmInfo :=
  match config? with
  | none => alarms
  | some config =>
    if !config.schedule.enabled then alarms
    else
      [ ⟨"blockingStart".data,
         (parseTime config.schedule.startTime).map (getNextAlarmTime todayMidnightMs nowMs),
         24 * 60⟩,
        ⟨"blockingEnd".data,
         (parseTime config.schedule.endTime).map (getNextAlarmTime todayMidnightMs nowMs),
         24 * 60⟩ ]

/-- One element of the persisted `ignoredBlocks` list
(`background.js:598-602`).  `date` stands for
`new Date(timestamp).toISOString()`, computed by the host's date library. -/
structure IgnoredBlock where
  url : Str
  timestamp : Int
  date : Str
deriving DecidableEq

/-- `background.js:597-609`, the `userIgnoredBlock` branch of the message
listener: push the new entry, then
`if (ignoredBlocks.length > 100) ignoredBlocks.splice(0, ignoredBlocks.length - 100)`
— drop from the front down to the most recent 100 — and persist the result. -/
def handleUserIgnoredBlock (ignoredBlocks : List IgnoredBlock)
    (url : Str) (timestamp : Int) (date : Str) : List IgnoredBlock :=
  let pushed := ignoredBlocks ++ [⟨url, timestamp, date⟩]
  if pushed.length > 100 then pushed.drop (pushed.length - 100) else pushed

/-- The slice of a page element the overlay lifecycle touches: its `id`
attribute and its `dataset.createdAt` entry.  The dataset value is stored in
the DOM as a decimal string (`Date.now().toString()`) and read back with
`parseInt`, which round-trips, so it is modelled directly as the integer;
`none` is an absent dataset entry. -/
structure OverlayElem where
  id : Str
  createdAt : Option Int
deriving DecidableEq

/-- The page state the overlay lifecycle touches: the elements attached under
`document.documentElement`, in document order, and
`document.documentElement.style.overflow`.  The overlay's internal shadow DOM
(buttons, message, styles) is closed off from the page and not modelled. -/
structure PageState where
  elements : List OverlayElem
  overflow : Str
deriving DecidableEq

/-- The reserved overlay element identifier, `'despair-blocker-overlay'`. -/
def overlayId : Str := "despair-blocker-overlay".data

/-- `document.getElementById(i)`: the first element with that id, in document
order. -/
def getElementById (st : PageState) (i : Str) : Option OverlayElem :=
  st.elements.find? fun el => el.id == i

/-- Number of elements carrying the overlay id. -/
def countOverlays (st : PageState) : Nat :=
  (st.elements.filter fun el => el.id == overlayId).length

/-- `background.js:294-581`, `blockPage`: return immediately if an element
with the overlay id already exists ("Prevent multiple injections", line 296);
otherwise build the shadow host with that id, append it to
`document.documentElement` (line 543) and set `overflow` to `'hidden'`
(line 561).  No `dataset` entry is written anywhere in the function, so the
new element carries no `createdAt`. -/
def blockPage (st : PageState) : PageState :=
  match getElementById st overlayId with
  | some _ => st
  | none =>
    { elements := st.elements ++ [⟨overlayId, none⟩],
      overflow := "hidden".data }

/-- `content.js:236-246`, `emergencyCleanup`: if an element with the overlay
id exists, remove it (`overlay.remove()`) and restore scrolling
(`overflow = ''`); otherwise do nothing. -/
def emergencyCleanup (st : PageState) : PageState :=
  match getElementById st overlayId with
  | some _ =>
    { elements := st.elements.eraseP fun el => el.id == overlayId,
      overflow := [] }
  | none => st

/-- Write `dataset.createdAt = now.toString()` on the first element with the
given id (the element `getElementById` returned). -/
def stampCreatedAt (i : Str) (now : Int) : List OverlayElem → List OverlayElem
  | [] => []
  | el :: rest =>
    if el.id == i then { el with createdAt := some now } :: rest
    else el :: stampCreatedAt i now rest

/-- `content.js:260-276`, the body of the 30-second periodic cleanup
`setInterval`: look up the overlay; if present and its `dataset.createdAt` is
set and `Date.now() - parseInt(overlayTime) > 5 * 60 * 1000` then
`emergencyCleanup()`; if present without a timestamp, stamp it with the
current time ("Add timestamp if missing"); otherwise do nothing. -/
def cleanupSweep (now : Int) (st : PageState) : PageState :=
  match getElementById st overlayId with
  | none => st
  | some overlay =>
    match overlay.createdAt with
    | some t => if now - t > 5 * 60 * 1000 then emergencyCleanup st else st
    | none => { st with elements := stampCreatedAt overlayId now st.elements }

/-! ## Theorems -/

/-- C1: the site-match predicate of `shouldBlockCurrentSite` holds iff some
entry `site` of the blocked list satisfies: the hostname contains
`lowercase(site)` as a substring, or `lowercase(site)` contains the hostname
as a substring; and the three concrete vectors
`matches("m.youtube.com", ["youtube.com"]) = true`,
`matches("example.com", ["youtube.com"]) = false`,
`matches("youtube.com", ["tube.com"]) = true` reproduce. -/
theorem isBlockedSite_bidirectional_substring :
    (∀ (hostname : Str) (blockedSites : List Str),
        isBlockedSite hostname blockedSites = true ↔
          ∃ site ∈ blockedSites,
            jsToLower site <:+: hostname ∨ hostname <:+: jsToLower site)
    ∧ isBlockedSite "m.youtube.com".data ["youtube.com".data] = true
    ∧ isBlockedSite "example.com".data ["youtube.com".data] = false
    ∧ isBlockedSite "youtube.com".data ["tube.com".data] = true := by
  refine ⟨fun hostname blockedSites => ?_, by decide, by decide, by decide⟩
  simp [isBlockedSite, jsIncludes, List.any_eq_true]

/-- C2: with `schedule.enabled = false` the evaluation is always "within
window"; with `schedule.enabled = true` and start/end times converting to
`startT`/`endT` minutes since midnight, the evaluation is "within window" iff
the day of week is in `workDays` and `startT ≤ currentTime ≤ endT`, inclusive
at both ends. -/
theorem withinWindow_spec :
    (∀ (schedule : Schedule), schedule.enabled = false →
        ∀ (currentDay currentTime : Nat),
          withinWindow currentDay currentTime schedule = true)
    ∧ (∀ (schedule : Schedule) (startT endT : Nat), schedule.enabled = true →
        parseTimeToMinutes schedule.startTime = some startT →
        parseTimeToMinutes schedule.endTime = some endT →
        ∀ (currentDay currentTime : Nat),
          (withinWindow currentDay currentTime schedule = true ↔
            currentDay ∈ schedule.workDays ∧
              startT ≤ currentTime ∧ currentTime ≤ endT)) := by
  constructor
  · intro schedule h currentDay currentTime
    simp [withinWindow, h]
  · intro schedule startT endT he hs hE currentDay currentTime
    cases hc : schedule.workDays.contains currentDay with
    | false =>
      simp only [withinWindow, he, Bool.not_true, Bool.false_eq_true,
        if_false, hc, Bool.not_false, if_true]
      simp only [false_iff, not_and]
      intro hmem
      exact absurd (List.elem_eq_true_of_mem hmem) (by simp [List.contains] at hc ⊢; exact hc)
    | true =>
      have hmem : currentDay ∈ schedule.workDays :=
        List.mem_of_elem_eq_true (by simpa [List.contains] using hc)
      simp [withinWindow, he, hc, hs, hE, hmem, and_assoc]

/-- C3: whenever the `temporaryDisabled` flag read from storage is true,
`shouldBlockCurrentSite` returns false, for every hostname-parse outcome
(including a parse failure), every config, and every current time — the flag
is checked before URL parsing, site matching and schedule evaluation. -/
theorem temporaryDisabled_short_circuits :
    ∀ (hostnameResult : Except Unit Str) (config? : Option Config)
      (currentDay currentTime : Nat),
      shouldBlockCurrentSite hostnameResult (.ok (config?, true))
        currentDay currentTime = false := by
  intro hostnameResult config? currentDay currentTime
  rfl

/-- C4: `shouldBlockCurrentSite` is a total Boolean function that fails open:
a URL-parse failure gives false (for every storage state), a failed storage
read gives false (for every URL outcome), and an absent config gives false. -/
theorem shouldBlock_fail_open :
    (∀ (storage : Except Unit (Option Config × Bool)) (currentDay currentTime : Nat),
        shouldBlockCurrentSite (.error ()) storage currentDay currentTime = false)
    ∧ (∀ (hostnameResult : Except Unit Str) (currentDay currentTime : Nat),
        shouldBlockCurrentSite hostnameResult (.error ()) currentDay currentTime = false)
    ∧ (∀ (hostnameResult : Except Unit Str) (temporaryDisabled : Bool)
        (currentDay currentTime : Nat),
        shouldBlockCurrentSite hostnameResult (.ok (none, temporaryDisabled))
          currentDay currentTime = false) := by
  refine ⟨?_, ?_, ?_⟩
  · rintro (⟨⟩ | ⟨config?, td⟩) currentDay currentTime
    · rfl
    · cases td
      · cases config? <;> rfl
      · rfl
  · rintro hostnameResult currentDay currentTime
    rfl
  · rintro hostnameResult td currentDay currentTime
    cases td <;> rfl

/-- C9: if the blocked-sites list contains the empty string, the site-match
step evaluates to true for every hostname. -/
theorem isBlockedSite_empty_entry :
    ∀ (hostname : Str) (blockedSites : List Str),
      ([] : Str) ∈ blockedSites → isBlockedSite hostname blockedSites = true := by
  intro hostname blockedSites hmem
  refine List.any_eq_true.mpr ⟨[], hmem, ?_⟩
  simp [jsIncludes, jsToLower]

/-- Witness for C9 at a concrete hostname and list. -/
theorem isBlockedSite_empty_entry_witness :
    ([] : Str) ∈ [([] : Str)]
    ∧ isBlockedSite "example.org".data [([] : Str)] = true :=
  ⟨List.mem_singleton.mpr rfl,
    isBlockedSite_empty_entry "example.org".data [([] : Str)]
      (List.mem_singleton.mpr rfl)⟩

/-- Witness for C2: schedule-off Saturday noon is within window, and the
Monday-09:00 vector of the enabled 09:00–17:00 Mon–Fri schedule. -/
theorem withinWindow_spec_witness :
    withinWindow 6 720 ⟨false, "09:00".data, "17:00".data, []⟩ = true
    ∧ (withinWindow 1 540 ⟨true, "09:00".data, "17:00".data, [1, 2, 3, 4, 5]⟩ = true ↔
        1 ∈ [1, 2, 3, 4, 5] ∧ 540 ≤ 540 ∧ 540 ≤ 1020) :=
  ⟨withinWindow_spec.1 ⟨false, "09:00".data, "17:00".data, []⟩ rfl 6 720,
    withinWindow_spec.2 ⟨true, "09:00".data, "17:00".data, [1, 2, 3, 4, 5]⟩
      540 1020 rfl (by decide) (by decide) 1 540⟩

/-- Erasing the sole element satisfying `p` leaves a list in which `find? p`
fails. -/
theorem find?_eraseP_of_filter_singleton {α : Type} (p : α → Bool) :
    ∀ (l : List α), (l.filter p).length = 1 → (l.eraseP p).find? p = none := by
  intro l
  induction l with
  | nil => simp
  | cons a t ih =>
    intro h
    cases hpa : p a with
    | false =>
      rw [List.eraseP_cons_of_neg (by simp [hpa])]
      rw [List.find?_cons_of_neg _ (by simp [hpa])]
      apply ih
      simpa [List.filter_cons, hpa] using h
    | true =>
      rw [List.eraseP_cons_of_pos hpa]
      rw [List.find?_eq_none]
      intro x hx
      have ht : t.filter p = [] := by
        rw [List.filter_cons_of_pos hpa] at h
        exact List.length_eq_zero.mp (by simpa using h)
      have := List.filter_eq_nil_iff.mp ht x hx
      simpa using this

/-- Stamping the first element with the sought id turns `find?` into the
stamped element. -/
theorem find?_stampCreatedAt {i : Str} (now : Int) :
    ∀ {l : List OverlayElem} {el : OverlayElem},
      l.find? (fun e => e.id == i) = some el →
      (stampCreatedAt i now l).find? (fun e => e.id == i) = some ⟨el.id, some now⟩ := by
  intro l
  induction l with
  | nil => intro el h; simp at h
  | cons a t ih =>
    intro el h
    simp only [List.find?] at h
    cases ha : (a.id == i) with
    | false =>
      simp only [ha] at h
      simp only [stampCreatedAt, ha, Bool.false_eq_true, if_false]
      simp only [List.find?, ha]
      exact ih h
    | true =>
      simp only [ha] at h
      injection h with h
      subst h
      simp only [stampCreatedAt, ha, if_true]
      simp only [List.find?]
      simp [ha]

/-- Stamping a timestamp changes no element's id, so the overlay count is
unchanged. -/
theorem filter_length_stampCreatedAt (i : Str) (now : Int) :
    ∀ (l : List OverlayElem),
      ((stampCreatedAt i now l).filter fun e => e.id == overlayId).length
        = (l.filter fun e => e.id == overlayId).length := by
  intro l
  induction l with
  | nil => rfl
  | cons a t ih =>
    cases ha : (a.id == i) with
    | false =>
      simp only [stampCreatedAt, ha, Bool.false_eq_true, if_false]
      rw [List.filter_cons, List.filter_cons]
      cases hb : (a.id == overlayId) with
      | false => simpa using ih
      | true => simpa using ih
    | true =>
      simp only [stampCreatedAt, ha, if_true]
      rw [List.filter_cons, List.filter_cons]
      cases hb : (a.id == overlayId) with
      | false => simp [hb]
      | true => simp [hb]

/-- Reduction of `blockPage` when an overlay element is present. -/
theorem blockPage_found {st : PageState} {el : OverlayElem}
    (h : getElementById st overlayId = some el) : blockPage st = st := by
  unfold blockPage
  rw [h]

/-- Reduction of `blockPage` when no overlay element is present: the shadow
host is appended and scrolling disabled. -/
theorem blockPage_not_found {st : PageState}
    (h : getElementById st overlayId = none) :
    blockPage st = ⟨st.elements ++ [⟨overlayId, none⟩], "hidden".data⟩ := by
  unfold blockPage
  rw [h]

/-- Reduction of `emergencyCleanup` when an overlay element is present. -/
theorem emergencyCleanup_found {st : PageState} {el : OverlayElem}
    (h : getElementById st overlayId = some el) :
    emergencyCleanup st = ⟨st.elements.eraseP fun e => e.id == overlayId, []⟩ := by
  unfold emergencyCleanup
  rw [h]

/-- Reduction of the cleanup sweep on an overlay without a timestamp. -/
theorem cleanupSweep_of_no_timestamp {st : PageState} {el : OverlayElem} {now : Int}
    (h : getElementById st overlayId = some el) (hc : el.createdAt = none) :
    cleanupSweep now st
      = { st with elements := stampCreatedAt overlayId now st.elements } := by
  simp [cleanupSweep, h, hc]

/-- Reduction of the cleanup sweep on an overlay with a timestamp. -/
theorem cleanupSweep_of_timestamp {st : PageState} {el : OverlayElem} {now t : Int}
    (h : getElementById st overlayId = some el) (hc : el.createdAt = some t) :
    cleanupSweep now st
      = if now - t > 5 * 60 * 1000 then emergencyCleanup st else st := by
  simp [cleanupSweep, h, hc]

/-- After injecting into an overlay-free page, lookup finds the fresh,
timestamp-free shadow host. -/
theorem getElementById_blockPage {st : PageState}
    (h : getElementById st overlayId = none) :
    getElementById (blockPage st) overlayId = some ⟨overlayId, none⟩ := by
  rw [blockPage_not_found h]
  simp only [getElementById] at h ⊢
  rw [List.find?_append, h]
  simp

/-- C5: `blockPage` is a no-op when an overlay element already exists,
injecting twice equals injecting once, and from an overlay-free page two
consecutive `blockPage` calls leave exactly one overlay element. -/
theorem blockPage_idempotent :
    (∀ (st : PageState), (getElementById st overlayId).isSome = true →
        blockPage st = st)
    ∧ (∀ (st : PageState), blockPage (blockPage st) = blockPage st)
    ∧ (∀ (st : PageState), countOverlays st = 0 →
        countOverlays (blockPage (blockPage st)) = 1) := by
  refine ⟨?_, ?_, ?_⟩
  · intro st h
    obtain ⟨el, hel⟩ := Option.isSome_iff_exists.mp h
    exact blockPage_found hel
  · intro st
    cases h : getElementById st overlayId with
    | some el =>
      rw [blockPage_found h]
      exact blockPage_found h
    | none =>
      exact blockPage_found (getElementById_blockPage h)
  · intro st h0
    have hnil : st.elements.filter (fun el => el.id == overlayId) = [] := by
      simp only [countOverlays] at h0
      exact List.length_eq_zero.mp h0
    have hnone : getElementById st overlayId = none := by
      simp only [getElementById]
      rw [List.find?_eq_none]
      intro x hx
      have := List.filter_eq_nil_iff.mp hnil x hx
      simpa using this
    rw [blockPage_found (getElementById_blockPage hnone), blockPage_not_found hnone]
    simp only [countOverlays, List.filter_append, hnil]
    simp

/-- Witness for C5: on the empty page, the second injection is a no-op and
exactly one overlay element results. -/
theorem blockPage_idempotent_witness :
    ((getElementById (blockPage ⟨[], []⟩) overlayId).isSome = true
      ∧ blockPage (blockPage ⟨[], []⟩) = blockPage ⟨[], []⟩)
    ∧ (countOverlays ⟨[], []⟩ = 0
      ∧ countOverlays (blockPage (blockPage ⟨[], []⟩)) = 1) :=
  ⟨⟨by decide, blockPage_idempotent.1 (blockPage ⟨[], []⟩) (by decide)⟩,
    ⟨rfl, blockPage_idempotent.2.2 ⟨[], []⟩ rfl⟩⟩

/-- C6 counterexample: injecting into an empty page yields the overlay
element with `dataset.createdAt` absent — `blockPage` records no creation
timestamp. -/
theorem blockPage_records_no_timestamp :
    getElementById (blockPage ⟨[], []⟩) overlayId = some ⟨overlayId, none⟩ := by
  decide

/-- C6 amended: `blockPage` leaves the overlay without a timestamp; the first
periodic cleanup sweep to observe such an overlay stamps it with the sweep's
own current time (removing nothing and leaving scrolling alone), and that
stamp is the timestamp later sweeps compare against the 5-minute ceiling. -/
theorem cleanupSweep_stamps_missing_timestamp :
    ∀ (st : PageState) (el : OverlayElem) (now : Int),
      getElementById st overlayId = some el → el.createdAt = none →
      countOverlays st = 1 →
      getElementById (cleanupSweep now st) overlayId = some ⟨el.id, some now⟩
      ∧ (cleanupSweep now st).overflow = st.overflow
      ∧ countOverlays (cleanupSweep now st) = 1
      ∧ ∀ (later : Int),
          (later - now > 5 * 60 * 1000 →
            getElementById (cleanupSweep later (cleanupSweep now st)) overlayId = none)
          ∧ (later - now ≤ 5 * 60 * 1000 →
            cleanupSweep later (cleanupSweep now st) = cleanupSweep now st) := by
  intro st el now hfind hnone hcount
  have hstamp := @cleanupSweep_of_no_timestamp st el now hfind hnone
  have hfind' : getElementById (cleanupSweep now st) overlayId
      = some ⟨el.id, some now⟩ := by
    rw [hstamp]
    simp only [getElementById]
    exact find?_stampCreatedAt now (by simpa [getElementById] using hfind)
  have hcount' : countOverlays (cleanupSweep now st) = 1 := by
    rw [hstamp]
    simp only [countOverlays]
    rw [filter_length_stampCreatedAt]
    simpa [countOverlays] using hcount
  refine ⟨hfind', by rw [hstamp], hcount', ?_⟩
  intro later
  constructor
  · intro hexp
    rw [cleanupSweep_of_timestamp hfind' rfl, if_pos hexp,
      emergencyCleanup_found hfind']
    simp only [getElementById]
    apply find?_eraseP_of_filter_singleton
    simpa [countOverlays] using hcount'
  · intro hyoung
    rw [cleanupSweep_of_timestamp hfind' rfl, if_neg (Int.not_lt.mpr hyoung)]

/-- Witness for C6's amended statement: the overlay `blockPage` injects into
an empty page has no timestamp; a sweep at time 7 stamps it with 7. -/
theorem cleanupSweep_stamps_missing_timestamp_witness :
    (getElementById (blockPage ⟨[], []⟩) overlayId = some ⟨overlayId, none⟩
      ∧ countOverlays (blockPage ⟨[], []⟩) = 1)
    ∧ getElementById (cleanupSweep 7 (blockPage ⟨[], []⟩)) overlayId
        = some ⟨overlayId, some 7⟩ :=
  ⟨⟨by decide, by decide⟩,
    (cleanupSweep_stamps_missing_timestamp (blockPage ⟨[], []⟩)
      ⟨overlayId, none⟩ 7 (by decide) rfl (by decide)).1⟩

/-- C7: one sweep execution removes an overlay whose recorded timestamp lies
more than five minutes in the past and restores scrolling; an overlay at or
under the ceiling is left exactly in place. -/
theorem cleanupSweep_expiry :
    ∀ (st : PageState) (el : OverlayElem) (t now : Int),
      getElementById st overlayId = some el → el.createdAt = some t →
      countOverlays st = 1 →
      (now - t > 5 * 60 * 1000 →
        getElementById (cleanupSweep now st) overlayId = none
        ∧ (cleanupSweep now st).overflow = [])
      ∧ (now - t ≤ 5 * 60 * 1000 → cleanupSweep now st = st) := by
  intro st el t now hfind hcreated hcount
  constructor
  · intro hexp
    rw [cleanupSweep_of_timestamp hfind hcreated, if_pos hexp,
      emergencyCleanup_found hfind]
    refine ⟨?_, rfl⟩
    simp only [getElementById]
    apply find?_eraseP_of_filter_singleton
    simpa [countOverlays] using hcount
  · intro hyoung
    rw [cleanupSweep_of_timestamp hfind hcreated, if_neg (Int.not_lt.mpr hyoung)]

/-- Witness for C7: a lone overlay stamped at time 0 is removed by a sweep at
time 300001 ms (> 5 minutes), with scrolling restored. -/
theorem cleanupSweep_expiry_witness :
    (getElementById ⟨[⟨overlayId, some 0⟩], "hidden".data⟩ overlayId
        = some ⟨overlayId, some 0⟩
      ∧ countOverlays ⟨[⟨overlayId, some 0⟩], "hidden".data⟩ = 1
      ∧ ((300001 : Int) - 0 > 5 * 60 * 1000))
    ∧ getElementById (cleanupSweep 300001 ⟨[⟨overlayId, some 0⟩], "hidden".data⟩)
        overlayId = none
    ∧ (cleanupSweep 300001 ⟨[⟨overlayId, some 0⟩], "hidden".data⟩).overflow = [] :=
  ⟨⟨by decide, by decide, by decide⟩,
    (cleanupSweep_expiry ⟨[⟨overlayId, some 0⟩], "hidden".data⟩
      ⟨overlayId, some 0⟩ 0 300001 (by decide) rfl (by decide)).1 (by decide)⟩

/-- C8 counterexample: with a config whose `schedule.enabled` is false,
`setupBlockingSchedule` neither clears the pre-existing alarm nor creates
`blockingStart`/`blockingEnd` — it returns with the alarm set untouched. -/
theorem setupBlockingSchedule_disabled_is_noop :
    setupBlockingSchedule
        (some ⟨[], ⟨false, "09:00".data, "17:00".data, [1, 2, 3, 4, 5]⟩, [], true⟩)
        0 0 [⟨"stale".data, some 5, 1440⟩]
      = [⟨"stale".data, some 5, 1440⟩]
    ∧ ("blockingStart".data ∈
        (setupBlockingSchedule
          (some ⟨[], ⟨false, "09:00".data, "17:00".data, [1, 2, 3, 4, 5]⟩, [], true⟩)
          0 0 [⟨"stale".data, some 5, 1440⟩]).map AlarmInfo.name) = False := by
  refine ⟨rfl, ?_⟩
  simp only [eq_iff_iff, iff_false]
  decide

/-- C8 amended: the scheduler recreates the two daily triggers from the new
start/end times — replacing whatever alarms existed — only when a config is
present and `schedule.enabled` is true; with an absent config or a disabled
schedule it leaves the existing alarms untouched; and a computed trigger
instant that is at or before now is pushed to the next day. -/
theorem setupBlockingSchedule_spec :
    (∀ (todayMidnightMs nowMs : Nat) (alarms : List AlarmInfo),
        setupBlockingSchedule none todayMidnightMs nowMs alarms = alarms)
    ∧ (∀ (config : Config) (todayMidnightMs nowMs : Nat) (alarms : List AlarmInfo),
        config.schedule.enabled = false →
        setupBlockingSchedule (some config) todayMidnightMs nowMs alarms = alarms)
    ∧ (∀ (config : Config) (todayMidnightMs nowMs : Nat) (alarms : List AlarmInfo),
        config.schedule.enabled = true →
        setupBlockingSchedule (some config) todayMidnightMs nowMs alarms
          = [⟨"blockingStart".data,
              (parseTime config.schedule.startTime).map
                (getNextAlarmTime todayMidnightMs nowMs),
              24 * 60⟩,
             ⟨"blockingEnd".data,
              (parseTime config.schedule.endTime).map
                (getNextAlarmTime todayMidnightMs nowMs),
              24 * 60⟩])
    ∧ (∀ (todayMidnightMs nowMs : Nat) (time : Nat × Nat),
        (todayMidnightMs + (time.1 * 60 + time.2) * 60000 ≤ nowMs →
          getNextAlarmTime todayMidnightMs nowMs time
            = todayMidnightMs + (time.1 * 60 + time.2) * 60000 + 24 * 60 * 60 * 1000)
        ∧ (nowMs < todayMidnightMs + (time.1 * 60 + time.2) * 60000 →
          getNextAlarmTime todayMidnightMs nowMs time
            = todayMidnightMs + (time.1 * 60 + time.2) * 60000)) := by
  refine ⟨fun _ _ _ => rfl, ?_, ?_, ?_⟩
  · intro config tm nm alarms h
    simp [setupBlockingSchedule, h]
  · intro config tm nm alarms h
    simp [setupBlockingSchedule, h]
  · intro tm nm time
    constructor
    · intro h
      simp only [getNextAlarmTime]
      rw [if_pos h]
    · intro h
      simp only [getNextAlarmTime]
      rw [if_neg (by omega)]

/-- Witness for C8's amended statement: a disabled schedule leaves a stale
alarm untouched; an enabled 09:00–17:00 schedule evaluated at midnight
produces exactly the two daily triggers at 09:00 and 17:00 of the same day. -/
theorem setupBlockingSchedule_spec_witness :
    setupBlockingSchedule
        (some ⟨[], ⟨false, "09:00".data, "17:00".data, [1, 2, 3, 4, 5]⟩, [], true⟩)
        3 4 [⟨"stale".data, some 5, 1440⟩]
      = [⟨"stale".data, some 5, 1440⟩]
    ∧ setupBlockingSchedule
        (some ⟨[], ⟨true, "09:00".data, "17:00".data, [1, 2, 3, 4, 5]⟩, [], true⟩)
        0 0 []
      = [⟨"blockingStart".data, some 32400000, 1440⟩,
         ⟨"blockingEnd".data, some 61200000, 1440⟩] :=
  ⟨setupBlockingSchedule_spec.2.1
      ⟨[], ⟨false, "09:00".data, "17:00".data, [1, 2, 3, 4, 5]⟩, [], true⟩
      3 4 [⟨"stale".data, some 5, 1440⟩] rfl,
    by
      rw [setupBlockingSchedule_spec.2.2.1
        ⟨[], ⟨true, "09:00".data, "17:00".data, [1, 2, 3, 4, 5]⟩, [], true⟩
        0 0 [] rfl]
      decide⟩

/-- C10: handling a `userIgnoredBlock` message pushes the new entry and caps
the persisted list at 100: the result is never longer than 100, it is a
suffix of old-entries-then-new (only the oldest entries are dropped, from the
front), and once the pre-existing list plus the new entry exceeds 100 the
result has exactly the most recent 100. -/
theorem handleUserIgnoredBlock_cap :
    ∀ (ignoredBlocks : List IgnoredBlock) (url : Str) (timestamp : Int) (date : Str),
      (handleUserIgnoredBlock ignoredBlocks url timestamp date).length ≤ 100
      ∧ handleUserIgnoredBlock ignoredBlocks url timestamp date
          <:+ ignoredBlocks ++ [⟨url, timestamp, date⟩]
      ∧ (ignoredBlocks.length + 1 > 100 →
          (handleUserIgnoredBlock ignoredBlocks url timestamp date).length = 100) := by
  intro l url ts date
  have hl : (l ++ [(⟨url, ts, date⟩ : IgnoredBlock)]).length = l.length + 1 := by
    simp
  unfold handleUserIgnoredBlock
  by_cases h : (l ++ [(⟨url, ts, date⟩ : IgnoredBlock)]).length > 100
  · rw [if_pos h]
    refine ⟨?_, List.drop_suffix _ _, fun _ => ?_⟩
    · rw [List.length_drop]
      omega
    · rw [List.length_drop]
      omega
  · rw [if_neg h]
    exact ⟨by omega, List.suffix_refl _, fun hover => by omega⟩

/-- Witness for C10 at a full list of 100 entries: pushing one more keeps
exactly 100. -/
theorem handleUserIgnoredBlock_cap_witness :
    (List.replicate 100 (⟨[], 0, []⟩ : IgnoredBlock)).length + 1 > 100
    ∧ (handleUserIgnoredBlock (List.replicate 100 ⟨[], 0, []⟩) [] 0 []).length
        = 100 :=
  ⟨by simp,
    (handleUserIgnoredBlock_cap (List.replicate 100 ⟨[], 0, []⟩) [] 0 []).2.2
      (by simp)⟩

end DespairBlocker
